import Mathlib

/-
  Verification of the research-paper analysis backend.

  Shallow embedding of the Python sources under src/backend/src:
  - services/citations_service.py   (citation segmentation)
  - services/plagiarism_service.py  (TF-IDF plagiarism scoring shell)
  - services/factcheck_service.py   (claim extraction, fact-check orchestration)
  - routes/simple_analyze.py and routes/protected_analyze.py (pipeline orchestration)

  External effects (filesystem, HTTP calls, the sklearn vectorizer, the NLTK
  sentence tokenizer, random number generation, the system clock) are modelled
  as explicit oracle parameters; every branch and data transformation that the
  Python code performs on their results is embedded faithfully.
-/

namespace RPA

/-! ## Character-level models of the Python string operations used by the code -/

/-- Python whitespace as used by `str.strip`/`str.split` (ASCII whitespace set). -/
def pyIsSpace (c : Char) : Bool :=
  c = ' ' || c = '\t' || c = '\n' || c = '\r' || c = '\x0b' || c = '\x0c'

/-- `str.strip()` on the underlying character list. -/
def stripChars (l : List Char) : List Char :=
  ((l.dropWhile pyIsSpace).reverse.dropWhile pyIsSpace).reverse

/-- Python `s.strip()`. -/
def pyStrip (s : String) : String := ⟨stripChars s.data⟩

/-- Python `len(s)` (number of code points). -/
def pyLen (s : String) : Nat := s.data.length

/-- Python `s.lower()` (ASCII case folding suffices for the patterns used). -/
def pyLower (s : String) : String := ⟨s.data.map Char.toLower⟩

/-- Python `s[:n]` (slice of the first `n` code points). -/
def pyTake (s : String) (n : Nat) : String := ⟨s.data.take n⟩

/-- `p` is a leading run of `s` (character lists). -/
def strStarts : List Char → List Char → Bool
  | [], _ => true
  | _ :: _, [] => false
  | p :: ps, c :: cs => p == c && strStarts ps cs

/-- Python `s.startswith(p)`. -/
def pyStartsWith (s p : String) : Bool := strStarts p.data s.data

/-- Python `s.endswith(p)`. -/
def pyEndsWith (s p : String) : Bool := strStarts p.data.reverse s.data.reverse

/-- Python `c in s` for a single character. -/
def pyContainsChar (s : String) (c : Char) : Bool := s.data.contains c

/-- Helper for `pyWords`: accumulates the current word (reversed). -/
def wordsAux : List Char → List Char → List (List Char)
  | [], cur => if cur.isEmpty then [] else [cur.reverse]
  | c :: cs, cur =>
    if pyIsSpace c then
      if cur.isEmpty then wordsAux cs [] else cur.reverse :: wordsAux cs []
    else wordsAux cs (c :: cur)

/-- Python `s.split()` (split on whitespace runs, dropping empty pieces). -/
def pyWords (s : String) : List String := (wordsAux s.data []).map String.mk

/-- Python `" ".join(ws)`. -/
def joinSp : List String → String
  | [] => ""
  | [w] => w
  | w :: ws => w ++ " " ++ joinSp ws

/-- Helper for `pySplitLines`: accumulates the current line (reversed). -/
def splitLinesAux : List Char → List Char → List (List Char)
  | [], cur => [cur.reverse]
  | c :: cs, cur =>
    if c = '\n' then cur.reverse :: splitLinesAux cs [] else splitLinesAux cs (c :: cur)

/-- Python `s.split('\n')` (keeps empty pieces, as Python does). -/
def pySplitLines (s : String) : List String := (splitLinesAux s.data []).map String.mk

/-- Python `s.rfind(c)`: index of the last occurrence, `-1` if absent. -/
def pyRfind (s : String) (c : Char) : Int :=
  match s.data.reverse.findIdx? (· = c) with
  | some i => (s.data.length : Int) - 1 - (i : Int)
  | none => -1

/-! ## citations_service.py — citation segmentation

`_is_new_citation_start` matches the anchored regexes `^\d+\.`, `^\[\d+\]`,
`^\(\d+\)` and `^[A-Z][a-z]+,\s*[A-Z]`.  Because every quantified class is
disjoint from the literal that follows it, greedy matching is equivalent to
maximal munch, embedded below. -/

/-- After at least one digit has been read: consume further digits, then the
first non-digit character must be `stop`. -/
def digitsThen (stop : Char) : List Char → Bool
  | [] => false
  | c :: cs => if c.isDigit then digitsThen stop cs else c = stop

/-- The regex `^\d+\.`. -/
def matchNumDot : List Char → Bool
  | c :: cs => c.isDigit && digitsThen '.' cs
  | [] => false

/-- The regex `^\[\d+\]`. -/
def matchBracketNum : List Char → Bool
  | b :: c :: cs => b = '[' && c.isDigit && digitsThen ']' cs
  | _ => false

/-- The regex `^\(\d+\)`. -/
def matchParenNum : List Char → Bool
  | b :: c :: cs => b = '(' && c.isDigit && digitsThen ')' cs
  | _ => false

/-- After `[A-Z][a-z]`: consume further lowercase letters, then `,`, then
`\s*[A-Z]`. -/
def wsThenUpper : List Char → Bool
  | [] => false
  | c :: cs => if pyIsSpace c then wsThenUpper cs else c.isUpper

/-- Tail of the regex `^[A-Z][a-z]+,\s*[A-Z]` after the first lowercase letter. -/
def lowersCommaUpper : List Char → Bool
  | [] => false
  | c :: cs => if c.isLower then lowersCommaUpper cs else c = ',' && wsThenUpper cs

/-- The regex `^[A-Z][a-z]+,\s*[A-Z]` (an "Author, A." pattern). -/
def matchAuthor : List Char → Bool
  | a :: c :: cs => a.isUpper && c.isLower && lowersCommaUpper cs
  | _ => false

/-- Embeds `_is_new_citation_start` from citations_service.py. -/
def isNewCitationStart (line : String) : Bool :=
  let l := (pyStrip line).data
  matchNumDot l || matchBracketNum l || matchParenNum l || matchAuthor l

/-- After the line loop of `_parse_citations`: append the pending citation if
its stripped form is non-empty. -/
def parseFinish (cits : List String) (cur : String) : List String :=
  if pyStrip cur = "" then cits else cits ++ [pyStrip cur]

/-- The line loop of `_parse_citations`: state is the collected citations and
the citation currently being accumulated; the loop breaks once 50 citations
have been collected. -/
def parseLoop : List String → List String → String → List String
  | [], cits, cur => parseFinish cits cur
  | line :: rest, cits, cur =>
    let l := pyStrip line
    let p : List String × String :=
      if l = "" then
        if pyStrip cur = "" then (cits, cur) else (cits ++ [pyStrip cur], "")
      else if isNewCitationStart l then
        if pyStrip cur = "" then (cits, l) else (cits ++ [pyStrip cur], l)
      else (cits, cur ++ " " ++ l)
    if 50 ≤ p.1.length then parseFinish p.1 p.2
    else parseLoop rest p.1 p.2

/-- Embeds `_parse_citations` from citations_service.py: split the references
region into lines, skip the header line, and run the segmentation loop. -/
def parseCitations (referencesText : String) : List String :=
  parseLoop (pySplitLines referencesText).tail [] ""

/-- A well-formed single-line numbered reference entry: no surrounding
whitespace, non-empty, and recognised as the start of a citation. -/
def entryOk (e : String) : Prop :=
  pyStrip e = e ∧ e ≠ "" ∧ isNewCitationStart e = true

instance (e : String) : Decidable (entryOk e) := by
  unfold entryOk
  infer_instance

/-! ## plagiarism_service.py

The TF-IDF vectorizer and the cosine-similarity computation (sklearn) are
modelled as an oracle delivering either the row of similarity scores between
the uploaded document and each corpus entry, or the exception it raised.  The
filesystem behind `_load_corpus_with_filenames` / `_load_corpus` is modelled
as the list of files matched by the `**/*.txt` glob together with each file's
read outcome.  Resolving the corpus directory reads `current_app.config`,
which raises outside an application context; that step is modelled as the
`Except`-valued first argument of `check_plagiarism` / `check` and happens
before the `try` block, exactly as in the source. -/

/-- Python `round(q, 3)` (round-half-to-even and round-half-up agree away from
midpoints; all similarity values used in theorems below avoid midpoints). -/
def round3 (q : ℚ) : ℚ := (round (q * 1000) : ℤ) / 1000

/-- Python `round(q, 1)`. -/
def round1 (q : ℚ) : ℚ := (round (q * 10) : ℤ) / 10

/-- One entry of `matching_sources`: `{"file": ..., "score": ...}`. -/
structure MatchEntry where
  file : String
  score : ℚ
deriving DecidableEq

/-- The result dictionary of `check_plagiarism`:
`{"plagiarism_score": ..., "matching_sources": [...]}`. -/
structure PlagResult where
  plagiarismScore : ℚ
  matchingSources : List MatchEntry
deriving DecidableEq

/-- The filesystem as seen by the corpus loaders: whether the corpus directory
exists, and the glob result paired with each file's read outcome. -/
structure CorpusFS where
  dirExists : Bool
  files : List (String × Except String String)

/-- Python `os.path.basename` (the component after the last `/`). -/
def basename (p : String) : String :=
  ⟨(p.data.reverse.takeWhile (· ≠ '/')).reverse⟩

/-- Embeds `_load_corpus_with_filenames`: keep each readable file whose
stripped content exceeds 100 characters, pairing stripped content with the
file's basename; read errors skip the file. -/
def loadCorpusWithFilenames (fs : CorpusFS) : List String × List String :=
  if !fs.dirExists then ([], [])
  else
    let kept := fs.files.filterMap fun f =>
      match f.2 with
      | .error _ => none
      | .ok content =>
        let c := pyStrip content
        if 100 < pyLen c then some (c, basename f.1) else none
    (kept.map Prod.fst, kept.map Prod.snd)

/-- Embeds `_load_corpus` (same filter, contents only). -/
def loadCorpus (fs : CorpusFS) : List String :=
  if !fs.dirExists then []
  else
    fs.files.filterMap fun f =>
      match f.2 with
      | .error _ => none
      | .ok content =>
        let c := pyStrip content
        if 100 < pyLen c then some (pyStrip content) else none

/-- Descending order on match entries, as used by
`matching_sources.sort(key=lambda x: x["score"], reverse=True)`. -/
def scoreDesc (a b : MatchEntry) : Prop := b.score ≤ a.score

instance : DecidableRel scoreDesc :=
  fun a b => (inferInstance : Decidable (b.score ≤ a.score))

instance : IsTotal MatchEntry scoreDesc :=
  ⟨fun a b => le_total b.score a.score⟩

instance : IsTrans MatchEntry scoreDesc :=
  ⟨fun _ _ _ hab hbc => le_trans hbc hab⟩

/-- The filter loop over `enumerate(similarity_scores[0])`: entries whose
similarity exceeds 0.1 are kept with their score rounded to 3 decimals. -/
def similarityMatches (names : List String) (sims : List ℚ) : List MatchEntry :=
  (names.zip sims).filterMap fun p =>
    if (1 : ℚ)/10 < p.2 then some ⟨p.1, round3 p.2⟩ else none

/-- `similarity_scores.max()` (numpy max of a nonempty row; 0 for
an empty row never reaches this in the source because of the size guard). -/
def listMax : List ℚ → ℚ
  | [] => 0
  | [x] => x
  | x :: y :: xs => max x (listMax (y :: xs))

/-- The `.ok` payload of `check_plagiarism` on the success path: score is the
rounded maximum similarity, matches are the thresholded entries sorted by
rounded score descending (Python's sort is stable; `List.insertionSort` with
this relation is the same stable descending sort) capped to 10. -/
def plagOutput (fs : CorpusFS) (sims : List ℚ) : PlagResult :=
  { plagiarismScore := round3 (if sims.length ≠ 0 then listMax sims else 0)
    matchingSources :=
      (List.insertionSort scoreDesc (similarityMatches (loadCorpusWithFilenames fs).2 sims)).take 10 }

/-- The zero default `{"plagiarism_score": 0.0, "matching_sources": []}`. -/
def defaultPlag : PlagResult := ⟨0, []⟩

/-- Embeds `check_plagiarism(text)`.  `cfg` is the corpus-directory resolution
outcome (outside the `try` block), `simsR` the vectorizer/similarity outcome
(inside it). -/
def checkPlagiarism (cfg : Except String CorpusFS) (simsR : Except String (List ℚ))
    (text : String) : Except String PlagResult :=
  if text = "" || pyLen (pyStrip text) < 100 then .ok defaultPlag
  else
    match cfg with
    | .error e => .error e
    | .ok fs =>
      if (loadCorpusWithFilenames fs).1.isEmpty then .ok defaultPlag
      else
        match simsR with
        | .error _ => .ok defaultPlag
        | .ok sims => .ok (plagOutput fs sims)

/-- Embeds `check(text)` (the percentage-scale variant). -/
def check (cfg : Except String CorpusFS) (simsR : Except String (List ℚ))
    (text : String) : Except String ℚ :=
  if text = "" || pyLen (pyStrip text) < 100 then .ok 0
  else
    match cfg with
    | .error e => .error e
    | .ok fs =>
      if (loadCorpus fs).isEmpty then .ok 0
      else
        match simsR with
        | .error _ => .ok 0
        | .ok sims => .ok (round1 ((if sims.length ≠ 0 then listMax sims else 0) * 100))

/-! ## factcheck_service.py — claim extraction

`nltk.tokenize.sent_tokenize` is an external tokenizer, modelled as a function
parameter; everything the service does with its output is embedded. -/

/-- Embeds `_is_likely_non_claim`: headers/shorthand starts, questions,
bracketed citations, reference-section starts, and sentences of fewer than
five whitespace-separated words are filtered out. -/
def isLikelyNonClaim (sentence : String) : Bool :=
  let sl := pyStrip (pyLower sentence)
  (pyStartsWith sl "figure" || pyStartsWith sl "table" || pyStartsWith sl "see" ||
    pyStartsWith sl "cf." || pyStartsWith sl "e.g." || pyStartsWith sl "i.e.") ||
  pyEndsWith sl "?" ||
  (pyContainsChar sentence '[' && pyContainsChar sentence ']') ||
  (pyStartsWith sl "references" || pyStartsWith sl "bibliography" ||
    pyStartsWith sl "acknowledgments") ||
  decide ((pyWords sentence).length < 5)

/-- The per-sentence filter of `extract_claims` (applied to the stripped
sentence): length strictly above 40 and not a likely non-claim. -/
def keepClaim (s : String) : Bool := decide (40 < pyLen s) && !isLikelyNonClaim s

/-- Embeds `extract_claims`: tokenize into sentences, strip each, keep the
claim-like ones, cap at the first 20. -/
def extractClaims (tok : String → List String) (text : String) : List String :=
  if text = "" then []
  else (((tok text).map pyStrip).filter keepClaim).take 20

/-! ## factcheck_service.py — query sanitization (`_clean_query_for_factcheck`) -/

/-- Control characters removed by `re.sub(r'[\x00-\x1f\x7f-\x9f]', '', ...)`. -/
def isCtrl (c : Char) : Bool :=
  c.toNat ≤ 0x1f || (0x7f ≤ c.toNat && c.toNat ≤ 0x9f)

/-- Code points of the quote/bracket class removed by the service:
`" ' [ ] { } ( ) < > « » “ ” ‘ ’ `` (backquote). -/
def removedPunctCodes : List Nat :=
  [0x22, 0x27, 0x5b, 0x5d, 0x7b, 0x7d, 0x28, 0x29, 0x3c, 0x3e,
   0xab, 0xbb, 0x201c, 0x201d, 0x2018, 0x2019, 0x60]

/-- Membership in the removed quote/bracket class. -/
def isQuoteBracket (c : Char) : Bool := removedPunctCodes.contains c.toNat

/-- Characters of the class `[.!?]` collapsed by `re.sub(r'[.!?]{2,}', '.')`. -/
def isSentPunct (c : Char) : Bool := c = '.' || c = '!' || c = '?'

/-- Characters of the class `[,;:]` collapsed by `re.sub(r'[,;:]{2,}', ',')`. -/
def isSepPunct (c : Char) : Bool := c = ',' || c = ';' || c = ':'

/-- Helper for `collapseRuns`; the flag records being inside a run whose
replacement character has already been emitted. -/
def collapseAux (p : Char → Bool) (rep : Char) : List Char → Bool → List Char
  | [], _ => []
  | c :: cs, true =>
    if p c then collapseAux p rep cs true else c :: collapseAux p rep cs false
  | c :: cs, false =>
    if p c then
      match cs with
      | d :: _ =>
        if p d then rep :: collapseAux p rep cs true else c :: collapseAux p rep cs false
      | [] => [c]
    else c :: collapseAux p rep cs false

/-- `re.sub` of a `p`-run of length at least 2 by `rep`: each maximal run of
two or more characters satisfying `p` becomes the single character `rep`;
lone occurrences stay. -/
def collapseRuns (p : Char → Bool) (rep : Char) (l : List Char) : List Char :=
  collapseAux p rep l false

/-- Embeds `_clean_query_for_factcheck` with the default `max_len = 120`.
The two float products `120 * 0.6` and `120 * 0.8` evaluate to exactly `72.0`
and `96.0` in IEEE double precision, so the boundary comparisons are the
integer comparisons used here. -/
def cleanQueryForFactcheck (claim : String) : String :=
  if claim = "" || pyStrip claim = "" then ""
  else
    let c1 := joinSp (pyWords claim)
    let c2 : String := ⟨c1.data.filter (fun c => !isCtrl c)⟩
    let c3 : String := ⟨c2.data.filter (fun c => !isQuoteBracket c)⟩
    let c4 : String := ⟨collapseRuns isSentPunct '.' c3.data⟩
    let c5 : String := ⟨collapseRuns isSepPunct ',' c4.data⟩
    let cleaned := joinSp (pyWords c5)
    if cleaned = "" then ""
    else if pyLen cleaned ≤ 120 then cleaned
    else
      let truncated : String := pyTake cleaned 120
      let lastEnd : Int :=
        max (pyRfind truncated '.') (max (pyRfind truncated '!') (pyRfind truncated '?'))
      if 72 < lastEnd then pyStrip (pyTake truncated (lastEnd.toNat + 1))
      else
        let lastSpace := pyRfind truncated ' '
        if 96 < lastSpace then pyStrip (pyTake truncated lastSpace.toNat)
        else pyStrip truncated

/-! ## factcheck_service.py — fact-check orchestration

The Google Fact Check Tools API (both REST and service-account transports),
`time.sleep`, and `random` are external effects.  API transports are oracles
indexed by claim number and attempt number; sleeps are recorded in an event
trace; the random draws of the mock generator are oracle functions. -/

/-- One `claimReview` entry of an API (or mock) fact-check record; only the
fields the service reads or constructs are carried. -/
structure Review where
  ratingValue : Option String := none
  ratingExplanation : Option String := none
  alternateName : Option String := none
  publisherName : Option String := none
  publisherSite : Option String := none
  reviewUrl : Option String := none
  title : Option String := none
  authorName : Option String := none
  datePublished : Option String := none
deriving DecidableEq

/-- One entry of the API response's `claims` list. -/
structure FactCheck where
  text : Option String := none
  claimReview : List Review := []
  url : Option String := none
deriving DecidableEq

/-- A parsed API response (`response.json()`), which the service reads via
`response.get("claims", [])`. -/
structure FCResponse where
  claims : List FactCheck
deriving DecidableEq

/-- One normalized result of `fact_check_claims`. -/
structure FCResult where
  claim : String
  status : String
  factChecks : List FactCheck
  error : Option String
deriving DecidableEq

/-- Python truthiness of `review.get("reviewRating", {}).get("ratingValue")`. -/
def ratingTruthy : Option String → Bool
  | some s => s ≠ ""
  | none => false

/-- Embeds `_determine_fact_check_status`: collects truthy rating values from
all claim reviews, then returns `"no_verdict"` on every path (both the
`if not ratings` branch and the final return are `"no_verdict"` in the
source). -/
def determineFactCheckStatus (factChecks : List FactCheck) : String :=
  if factChecks.isEmpty then "no_verdict"
  else
    let ratings := factChecks.foldr
      (fun fc acc =>
        (fc.claimReview.filterMap fun r =>
          if ratingTruthy r.ratingValue then r.ratingValue else none) ++ acc) []
    if ratings.isEmpty then "no_verdict" else "no_verdict"

/-- `mock_sources` from `_generate_mock_fact_check_results`. -/
def mockSources : List String :=
  ["FactCheck.org", "Snopes", "PolitiFact", "Reuters Fact Check",
   "AP Fact Check", "BBC Reality Check", "Washington Post Fact Checker"]

/-- One entry of `mock_verdicts`. -/
structure MockVerdict where
  status : String
  rating : String
  explanation : String
deriving DecidableEq

/-- `mock_verdicts` from `_generate_mock_fact_check_results`. -/
def mockVerdicts : List MockVerdict :=
  [⟨"verified", "True", "This claim is supported by credible sources and evidence."⟩,
   ⟨"contradicted", "False", "This claim contradicts established facts and reliable sources."⟩,
   ⟨"no_verdict", "Unproven", "Insufficient evidence to verify or contradict this claim."⟩,
   ⟨"verified", "Mostly True", "This claim is largely accurate with minor inaccuracies."⟩,
   ⟨"contradicted", "Mostly False", "This claim contains significant inaccuracies."⟩]

/-- The random draws consumed by the mock generator, as oracle functions of
the claim index (and fact-check index where applicable).  `random.choices`
with weights can produce any listed element, so an arbitrary choice function
is the faithful model of its possible outcomes. -/
structure MockRng where
  verdictChoice : Nat → Fin 5
  numChecks : Nat → Fin 3
  sourceChoice : Nat → Nat → Fin 7
  urlNum : Nat → Nat → Bool → Nat

/-- `mock_verdicts[k]`. -/
def verdictAt (k : Fin 5) : MockVerdict := mockVerdicts.getD k.val ⟨"", "", ""⟩

/-- `mock_sources[k]`. -/
def sourceAt (k : Fin 7) : String := mockSources.getD k.val ""

/-- `source.lower().replace(" ", "").replace(".", "")`. -/
def siteName (source : String) : String :=
  ⟨(pyLower source).data.filter (fun c => c ≠ ' ' && c ≠ '.')⟩

/-- One mock fact-check record for claim `claim` (index `i`, record `j`). -/
def mockFactCheck (rng : MockRng) (i j : Nat) (claim : String) (v : MockVerdict) : FactCheck :=
  let source := sourceAt (rng.sourceChoice i j)
  let site := siteName source
  { text := some (if 100 < pyLen claim then pyTake claim 100 ++ "..." else claim)
    claimReview := [{
      publisherName := some source
      publisherSite := some (site ++ ".com")
      reviewUrl := some ("https://" ++ site ++ ".com/factcheck/" ++ toString (rng.urlNum i j true))
      title := some ("Fact Check: " ++ pyTake claim 50 ++ (if 50 < pyLen claim then "..." else ""))
      ratingValue := some v.rating
      ratingExplanation := some v.explanation
      alternateName := some v.rating
      authorName := some (source ++ " Editorial Team")
      datePublished := some "2024-01-01" }]
    url := some ("https://" ++ site ++ ".com/factcheck/" ++ toString (rng.urlNum i j false)) }

/-- One mock result for claim `claim` at index `i`. -/
def mockResultFor (rng : MockRng) (i : Nat) (claim : String) : FCResult :=
  let v := verdictAt (rng.verdictChoice i)
  { claim := claim
    status := v.status
    factChecks := (List.range (rng.numChecks i).val).map (fun j => mockFactCheck rng i j claim v)
    error := none }

/-- The claim loop of `_generate_mock_fact_check_results`. -/
def generateMockAux (rng : MockRng) : Nat → List String → List FCResult
  | _, [] => []
  | i, c :: rest => mockResultFor rng i c :: generateMockAux rng (i + 1) rest

/-- Embeds `_generate_mock_fact_check_results`. -/
def generateMockFactCheckResults (rng : MockRng) (claims : List String) : List FCResult :=
  generateMockAux rng 0 claims

/-- The environment configuration read by the service at import time:
`FACTCHECK_USE`, `GOOGLE_API_KEY` (empty means unset/falsy),
`GOOGLE_FACTCHECK_SERVICE_ACCOUNT_FILE` and its existence on disk,
`FACTCHECK_MAX_RETRIES` (default 3) and `FACTCHECK_DELAY` (default 0.5s). -/
structure FCEnv where
  factcheckUse : String
  apiKey : String
  serviceAccountFile : String
  serviceAccountFileExists : Bool
  maxRetries : Nat
  delay : ℚ

/-- `use_service_account` in `fact_check_claims`. -/
def useServiceAccount (env : FCEnv) : Bool :=
  env.serviceAccountFile ≠ "" && env.serviceAccountFileExists &&
    env.factcheckUse = "service_account"

/-- `use_api_key` in `fact_check_claims`. -/
def useApiKey (env : FCEnv) : Bool :=
  env.apiKey ≠ "" && (env.factcheckUse = "api_key" || env.factcheckUse = "service_account")

/-- The external fact-check transports: service-account client initialization
and the two per-(claim, attempt) call outcomes. -/
structure FCApi where
  saInit : Except String Unit
  restAttempt : Nat → Nat → Except String FCResponse
  saAttempt : Nat → Nat → Except String FCResponse

/-- A recorded `time.sleep`: either the fixed inter-claim delay or a retry
backoff inside a transport call. -/
inductive SleepEv where
  | interClaim (d : ℚ)
  | backoff (d : ℚ)
deriving DecidableEq

/-- Whether a sleep event is the inter-claim delay. -/
def SleepEv.isInterClaim : SleepEv → Bool
  | .interClaim _ => true
  | .backoff _ => false

/-- The `for attempt in range(1, MAX_RETRIES + 1)` loop shared by both
transport wrappers: on failure at attempt `a < maxRetries` sleep `0.5 * a`
and retry; the final attempt's failure propagates.  Returns the outcome, the
number of attempts made, and the recorded backoff sleeps.  `fuel` is
`maxRetries - attempt + 1`, the number of loop iterations left. -/
def retryLoop (attemptOf : Nat → Except String FCResponse) (maxRetries : Nat) :
    Nat → Nat → Except String FCResponse × Nat × List SleepEv
  | _, 0 => (.error "retries exhausted", 0, [])
  | attempt, fuel + 1 =>
    match attemptOf attempt with
    | .ok r => (.ok r, 1, [])
    | .error e =>
      if attempt < maxRetries then
        let rec' := retryLoop attemptOf maxRetries (attempt + 1) fuel
        (rec'.1, rec'.2.1 + 1, .backoff ((1 : ℚ)/2 * attempt) :: rec'.2.2)
      else (.error e, 1, [])

/-- Embeds `_call_google_factcheck_rest` for claim index `i`: missing API key
raises, an empty cleaned query short-circuits to `{"claims": []}`, otherwise
the retry loop runs starting at attempt 1. -/
def callGoogleFactcheckRest (env : FCEnv) (api : FCApi) (i : Nat) (query : String) :
    Except String FCResponse × Nat × List SleepEv :=
  if env.apiKey = "" then (.error "GOOGLE_API_KEY not configured", 0, [])
  else if cleanQueryForFactcheck query = "" then (.ok ⟨[]⟩, 0, [])
  else retryLoop (api.restAttempt i) env.maxRetries 1 env.maxRetries

/-- Embeds `_call_google_factcheck_service_account` for claim index `i`. -/
def callGoogleFactcheckSA (env : FCEnv) (api : FCApi) (i : Nat) (query : String) :
    Except String FCResponse × Nat × List SleepEv :=
  if cleanQueryForFactcheck query = "" then (.ok ⟨[]⟩, 0, [])
  else retryLoop (api.saAttempt i) env.maxRetries 1 env.maxRetries

/-- The body of one iteration of the claim loop of `fact_check_claims`: the
cleaned-query guard, the transport call, and normalization of the outcome
(the sleeps of the iteration's transport call are returned alongside). -/
def fcStep (env : FCEnv) (api : FCApi) (callMode : String) (serviceOk : Bool)
    (i : Nat) (claim : String) : FCResult × List SleepEv :=
  if cleanQueryForFactcheck claim = "" then
    ({ claim := claim, status := "not_configured", factChecks := [],
       error := some "Claim could not be processed (too short or invalid after cleaning)" }, [])
  else
    let call :=
      if callMode = "service_account" && serviceOk then callGoogleFactcheckSA env api i claim
      else callGoogleFactcheckRest env api i claim
    match call.1 with
    | .ok resp =>
      ({ claim := claim, status := determineFactCheckStatus resp.claims,
         factChecks := resp.claims, error := none }, call.2.2)
    | .error e =>
      ({ claim := claim, status := "api_error", factChecks := [], error := some e }, call.2.2)

/-- The per-claim loop of `fact_check_claims`: a fixed inter-claim sleep
before every claim but the first, then the iteration body. -/
def fcLoop (env : FCEnv) (api : FCApi) (callMode : String) (serviceOk : Bool) :
    Nat → List String → List FCResult × List SleepEv
  | _, [] => ([], [])
  | i, claim :: rest =>
    let pre : List SleepEv := if 0 < i then [.interClaim env.delay] else []
    let step := fcStep env api callMode serviceOk i claim
    let rest' := fcLoop env api callMode serviceOk (i + 1) rest
    (step.1 :: rest'.1, pre ++ step.2 ++ rest'.2)

/-- Embeds `fact_check_claims`: empty input, the `FACTCHECK_USE=disabled`
branch, the mock branch when neither transport is configured,
service-account initialization (with API-key fallback), then the claim
loop.  Returns the results and the trace of sleeps. -/
def factCheckClaims (env : FCEnv) (api : FCApi) (rng : MockRng) (claims : List String) :
    List FCResult × List SleepEv :=
  if claims.isEmpty then ([], [])
  else if env.factcheckUse = "disabled" then
    (claims.map fun c =>
      { claim := c, status := "not_configured", factChecks := [],
        error := some "Fact-checking is disabled via FACTCHECK_USE=disabled" }, [])
  else if !useServiceAccount env && !useApiKey env then
    (generateMockFactCheckResults rng claims, [])
  else if useServiceAccount env then
    match api.saInit with
    | .ok _ => fcLoop env api "service_account" true 0 claims
    | .error e =>
      if !useApiKey env then
        (claims.map fun c =>
          { claim := c, status := "api_error", factChecks := [],
            error := some ("Service account initialization error: " ++ e) }, [])
      else fcLoop env api "api_key" false 0 claims
  else fcLoop env api "api_key" false 0 claims

/-! ## routes/simple_analyze.py and routes/protected_analyze.py — orchestration

The PDF text extraction and each analysis stage are fallible external
operations, modelled as `Except`-valued oracles.  The embedding returns the
HTTP response together with the list of analysis stages that were invoked. -/

/-- A citation dictionary produced by `citations_service.validate`
(`{"raw": ..., "cleaned_title": ..., "status": ...}`). -/
structure CitationOut where
  raw : String
  cleanedTitle : String
  status : String
deriving DecidableEq

/-- A formatted citation of the response
(`{"reference": ..., "valid": ...}`). -/
structure FormattedCitation where
  reference : String
  valid : Bool
deriving DecidableEq

/-- A formatted fact of the response (`{"claim": ..., "status": ...}`). -/
structure FormattedFact where
  claim : String
  status : String
deriving DecidableEq

/-- The `stats` object of the response. -/
structure AnalyzeStats where
  wordCount : Nat
  plagiarismPercent : ℚ
  citationsCount : Nat
deriving DecidableEq

/-- The successful (HTTP 200) response body of `/analyze`: its five top-level
fields `summary`, `plagiarism`, `citations`, `fact_check` (the `facts` list)
and `stats`. -/
structure AnalyzePayload where
  summary : String
  plagiarism : ℚ
  citations : List FormattedCitation
  factCheck : List FormattedFact
  stats : AnalyzeStats
deriving DecidableEq

/-- The HTTP response of the analyze endpoint. -/
inductive AnalyzeResponse where
  | success (p : AnalyzePayload)
  | clientError (msg : String)
  | serverError (msg : String)
deriving DecidableEq

/-- The HTTP status code attached to each response shape in the source. -/
def statusCode : AnalyzeResponse → Nat
  | .success _ => 200
  | .clientError _ => 400
  | .serverError _ => 500

/-- The outcomes of the four analysis stages as run by `analyze_document` in
simple_analyze.py (plagiarism is the percentage-scale `check`; the fact
stage combines `extract_claims` and `fact_check_claims`). -/
structure StageOutcomes where
  summarizeR : Except String String
  plagiarismR : Except String ℚ
  citationsR : Except String (List CitationOut)
  factsR : Except String (List FCResult)

/-- Formatting of one citation for the frontend:
`reference = citation["raw"]`, `valid = citation["status"] == "verified"`. -/
def formatCitation (c : CitationOut) : FormattedCitation :=
  ⟨c.raw, c.status = "verified"⟩

/-- Formatting of one fact-check result for the frontend. -/
def formatFact (f : FCResult) : FormattedFact :=
  ⟨f.claim, if f.status = "verified" then "Verified" else "Unverified"⟩

/-- Per-stage default substitution of the orchestrator: the summarization
stage's documented failure message. -/
def stageSummary (r : Except String String) : String :=
  match r with
  | .ok s => s
  | .error _ => "Unable to generate summary due to processing error."

/-- Per-stage default substitution: plagiarism score defaults to `0.0`. -/
def stageScore (r : Except String ℚ) : ℚ :=
  match r with
  | .ok q => q
  | .error _ => 0

/-- Per-stage default substitution: citation list defaults to `[]`. -/
def stageCitations (r : Except String (List CitationOut)) : List CitationOut :=
  match r with
  | .ok l => l
  | .error _ => []

/-- Per-stage default substitution: fact-check result list defaults to `[]`. -/
def stageFacts (r : Except String (List FCResult)) : List FCResult :=
  match r with
  | .ok l => l
  | .error _ => []

/-- Embeds `analyze_document` from simple_analyze.py: file/extension
validation, text extraction, the 100-character minimum-text gate, then the
four stages each wrapped in its own `try/except` substituting that stage's
default (the initial defaults assigned before the stages are overwritten on
both paths of every stage and are not observable).  The second component
lists the stages that were invoked. -/
def analyzeDocument (filePresent : Bool) (filename : String)
    (extractR : Except String (String × Nat × String))
    (st : StageOutcomes) : AnalyzeResponse × List String :=
  if !filePresent then (.clientError "No file provided", [])
  else if filename = "" then (.clientError "No file selected", [])
  else if !(pyEndsWith (pyLower filename) ".pdf") then
    (.clientError "Only PDF files are allowed", [])
  else
    match extractR with
    | .error e => (.serverError ("Analysis failed: " ++ e), [])
    | .ok (text, wordCount, _title) =>
      if text = "" || pyLen (pyStrip text) < 100 then
        (.clientError "Document text too short for analysis", [])
      else
        let summary := stageSummary st.summarizeR
        let plagiarismScore := stageScore st.plagiarismR
        let formattedCitations := (stageCitations st.citationsR).map formatCitation
        let formattedFacts := (stageFacts st.factsR).map formatFact
        (.success
          { summary := summary
            plagiarism := plagiarismScore
            citations := formattedCitations
            factCheck := formattedFacts
            stats :=
              { wordCount := wordCount
                plagiarismPercent := plagiarismScore
                citationsCount := formattedCitations.length } },
         ["summarize", "plagiarism", "citations", "factcheck"])

/-- Stage outcomes for `analyze_and_save` in protected_analyze.py, whose
plagiarism stage returns the `{"plagiarism_score", "matching_sources"}`
dictionary. -/
structure StageOutcomesP where
  summarizeR : Except String String
  plagiarismR : Except String PlagResult
  citationsR : Except String (List CitationOut)
  factsR : Except String (List FCResult)

/-- Per-stage default substitution in protected_analyze.py: the plagiarism
dictionary defaults to `{"plagiarism_score": 0.0, "matching_sources": []}`
(the `isinstance(..., dict)` fallback branch is unreachable because
`check_plagiarism` always returns a dictionary). -/
def stagePlagResult (r : Except String PlagResult) : PlagResult :=
  match r with
  | .ok p => p
  | .error _ => ⟨0, []⟩

/-- Embeds the stage section (lines 89-138) of `analyze_and_save` in
protected_analyze.py: the four independently-guarded stages with their
defaults, producing the values later written to the analysis record and the
response. -/
def protectedStages (st : StageOutcomesP) :
    String × PlagResult × List CitationOut × List FCResult :=
  (stageSummary st.summarizeR, stagePlagResult st.plagiarismR,
   stageCitations st.citationsR, stageFacts st.factsR)

/-! ## Concrete fixtures used by counterexamples and witnesses -/

/-- An API response list with one review rated "True". -/
def c3Input : List FactCheck :=
  [{ text := some "The earth is round", claimReview := [{ ratingValue := some "True" }] }]

/-- An environment with the default `FACTCHECK_USE=api_key` but no API key
and no service account: the unconfigured state. -/
def c4Env : FCEnv :=
  { factcheckUse := "api_key", apiKey := "", serviceAccountFile := "",
    serviceAccountFileExists := false, maxRetries := 3, delay := 1/2 }

/-- An environment with fact-checking explicitly disabled. -/
def c4DisabledEnv : FCEnv :=
  { factcheckUse := "disabled", apiKey := "", serviceAccountFile := "",
    serviceAccountFileExists := false, maxRetries := 3, delay := 1/2 }

/-- A deterministic instantiation of the mock generator's random draws that
always picks the first (verified) verdict. -/
def c4Rng : MockRng :=
  { verdictChoice := fun _ => 0, numChecks := fun _ => 0,
    sourceChoice := fun _ _ => 0, urlNum := fun _ _ _ => 1000 }

/-- A transport oracle whose calls always succeed with no reviews. -/
def c4Api : FCApi :=
  { saInit := .ok (), restAttempt := fun _ _ => .ok ⟨[]⟩, saAttempt := fun _ _ => .ok ⟨[]⟩ }

/-- A configured API-key environment with the default retry/delay settings. -/
def c8Env : FCEnv :=
  { factcheckUse := "api_key", apiKey := "key123", serviceAccountFile := "",
    serviceAccountFileExists := false, maxRetries := 3, delay := 1/2 }

/-- A transport oracle that times out on attempts 1 and 2 of every claim and
succeeds on attempt 3 (the retry vignette of the specification). -/
def c8Api : FCApi :=
  { saInit := .ok (),
    restAttempt := fun _ a => if a < 3 then .error "timeout" else .ok ⟨[]⟩,
    saAttempt := fun _ _ => .ok ⟨[]⟩ }

/-- A deterministic instantiation of the mock generator's random draws. -/
def c8Rng : MockRng :=
  { verdictChoice := fun _ => 2, numChecks := fun _ => 0,
    sourceChoice := fun _ _ => 0, urlNum := fun _ _ _ => 1000 }

/-! ## Helper lemmas -/

theorem pyStrip_empty : pyStrip "" = "" := rfl

theorem pyLen_pyStrip_empty : pyLen (pyStrip "") = 0 := rfl

/-- A text passing the 100-character gate is nonempty. -/
theorem ne_empty_of_gate {text : String} (h : 100 ≤ pyLen (pyStrip text)) : text ≠ "" := by
  intro he
  rw [he] at h
  simp [pyLen_pyStrip_empty] at h

/-- The success path of `check_plagiarism`: gate passed and corpus nonempty. -/
theorem checkPlagiarism_success (fs : CorpusFS) (sims : List ℚ) (text : String)
    (hgate : 100 ≤ pyLen (pyStrip text))
    (hne : (loadCorpusWithFilenames fs).1 ≠ []) :
    checkPlagiarism (.ok fs) (.ok sims) text = .ok (plagOutput fs sims) := by
  simp [checkPlagiarism, ne_empty_of_gate hgate, Nat.not_lt.mpr hgate, List.isEmpty_iff, hne]

/-! ## Claims about the plagiarism scorer (C5, C9, C10) -/

/-- C5 (amended): for a gate-passing document and a nonempty corpus with one
similarity per corpus entry, `check_plagiarism` returns the maximum cosine
similarity rounded to three decimals as the score, and `matching_sources`
drawn exactly from the corpus entries whose (unrounded) similarity exceeds
0.1, with rounded scores, sorted descending by rounded score, capped to the
top 10. -/
theorem C5_plagiarism_score_and_matches (fs : CorpusFS) (sims : List ℚ) (text : String)
    (hgate : 100 ≤ pyLen (pyStrip text))
    (hne : (loadCorpusWithFilenames fs).1 ≠ [])
    (hlen : sims.length = (loadCorpusWithFilenames fs).1.length) :
    checkPlagiarism (.ok fs) (.ok sims) text = .ok (plagOutput fs sims)
    ∧ (plagOutput fs sims).plagiarismScore = round3 (listMax sims)
    ∧ (plagOutput fs sims).matchingSources.length ≤ 10
    ∧ List.Sorted scoreDesc (plagOutput fs sims).matchingSources
    ∧ ∀ m ∈ (plagOutput fs sims).matchingSources,
        ∃ name sim, (name, sim) ∈ (loadCorpusWithFilenames fs).2.zip sims ∧
          (1:ℚ)/10 < sim ∧ m = ⟨name, round3 sim⟩ := by
  have hsims : sims.length ≠ 0 := by
    rw [hlen]
    simpa using hne
  refine ⟨checkPlagiarism_success fs sims text hgate hne, ?_, ?_, ?_, ?_⟩
  · simp [plagOutput, hsims]
  · simp [plagOutput]
  · exact List.Pairwise.sublist (List.take_sublist _ _) (List.sorted_insertionSort scoreDesc _)
  · intro m hm
    have hm2 : m ∈ List.insertionSort scoreDesc
        (similarityMatches (loadCorpusWithFilenames fs).2 sims) := List.mem_of_mem_take hm
    have hm3 : m ∈ similarityMatches (loadCorpusWithFilenames fs).2 sims :=
      (List.perm_insertionSort scoreDesc _).mem_iff.mp hm2
    obtain ⟨⟨name, sim⟩, hp, heq⟩ := List.mem_filterMap.mp hm3
    rw [Option.ite_none_right_eq_some, Option.some_inj] at heq
    exact ⟨name, sim, hp, heq.1, heq.2.symm⟩

set_option maxRecDepth 8000 in
/-- C5 counterexample: with one corpus entry at similarity 0.1234 the
returned score is the rounded 0.123, not the maximum similarity itself. -/
theorem C5_counterexample :
    checkPlagiarism (.ok ⟨true, [("corpus/a.txt", .ok ⟨List.replicate 120 'b'⟩)]⟩)
        (.ok [617/5000]) ⟨List.replicate 120 'a'⟩ =
      .ok ⟨123/1000, [⟨"a.txt", 123/1000⟩]⟩ ∧ ((123 : ℚ)/1000 ≠ 617/5000) := by
  constructor
  · rw [checkPlagiarism_success _ _ _ (by decide) (by decide)]
    have hl2 : (loadCorpusWithFilenames
        ⟨true, [("corpus/a.txt", .ok ⟨List.replicate 120 'b'⟩)]⟩).2 = ["a.txt"] := by decide
    simp only [plagOutput, hl2, similarityMatches, listMax, List.zip_cons_cons,
      List.zip_nil_right, List.filterMap_cons, List.filterMap_nil]
    norm_num [round3, round_eq, List.insertionSort, List.orderedInsert]
  · norm_num

set_option maxRecDepth 8000 in
/-- C5 witness: the amended theorem applied to a concrete one-entry corpus. -/
theorem C5_witness :
    checkPlagiarism (.ok ⟨true, [("corpus/b.txt", .ok ⟨List.replicate 150 'c'⟩)]⟩)
        (.ok [1/2]) ⟨List.replicate 150 'd'⟩ =
      .ok (plagOutput ⟨true, [("corpus/b.txt", .ok ⟨List.replicate 150 'c'⟩)]⟩ [1/2])
    ∧ (plagOutput ⟨true, [("corpus/b.txt", .ok ⟨List.replicate 150 'c'⟩)]⟩ [1/2]).plagiarismScore
        = round3 (listMax [1/2])
    ∧ (plagOutput ⟨true, [("corpus/b.txt", .ok ⟨List.replicate 150 'c'⟩)]⟩
        [1/2]).matchingSources.length ≤ 10
    ∧ List.Sorted scoreDesc (plagOutput ⟨true, [("corpus/b.txt", .ok ⟨List.replicate 150 'c'⟩)]⟩
        [1/2]).matchingSources
    ∧ ∀ m ∈ (plagOutput ⟨true, [("corpus/b.txt", .ok ⟨List.replicate 150 'c'⟩)]⟩
          [1/2]).matchingSources,
        ∃ name sim,
          (name, sim) ∈ (loadCorpusWithFilenames
            ⟨true, [("corpus/b.txt", .ok ⟨List.replicate 150 'c'⟩)]⟩).2.zip [1/2] ∧
          (1:ℚ)/10 < sim ∧ m = ⟨name, round3 sim⟩ :=
  C5_plagiarism_score_and_matches _ _ _ (by decide) (by decide) (by decide)

/-- C9: if every corpus file is unreadable or has at most 100 stripped
characters (or the corpus directory is missing), both plagiarism entry points
return the zero default without an error, for any document text and any
vectorizer outcome. -/
theorem C9_empty_corpus_zero (fs : CorpusFS) (simsR : Except String (List ℚ)) (text : String)
    (hfiles : fs.dirExists = false ∨
      ∀ f ∈ fs.files, ∀ c, f.2 = .ok c → pyLen (pyStrip c) ≤ 100) :
    checkPlagiarism (.ok fs) simsR text = .ok defaultPlag ∧ check (.ok fs) simsR text = .ok 0 := by
  have hload : loadCorpusWithFilenames fs = ([], []) ∧ loadCorpus fs = [] := by
    rcases hfiles with h | h
    · simp [loadCorpusWithFilenames, loadCorpus, h]
    · constructor
      · simp only [loadCorpusWithFilenames]
        have hnil : fs.files.filterMap (fun f =>
            match f.2 with
            | .error _ => none
            | .ok content =>
              let c := pyStrip content
              if 100 < pyLen c then some (c, basename f.1) else none) = [] := by
          rw [List.filterMap_eq_nil_iff]
          intro f hf
          rcases hrd : f.2 with e | c
          · simp
          · have := h f hf c hrd
            simp [Nat.not_lt.mpr this]
        split
        · rfl
        · simp [hnil]
      · simp only [loadCorpus]
        have hnil : fs.files.filterMap (fun f =>
            match f.2 with
            | .error _ => none
            | .ok content =>
              let c := pyStrip content
              if 100 < pyLen c then some (pyStrip content) else none) = [] := by
          rw [List.filterMap_eq_nil_iff]
          intro f hf
          rcases hrd : f.2 with e | c
          · simp
          · have := h f hf c hrd
            simp [Nat.not_lt.mpr this]
        split
        · rfl
        · simp [hnil]
  constructor
  · by_cases hg : text = "" || pyLen (pyStrip text) < 100
    · simp [checkPlagiarism, hg]
    · simp [checkPlagiarism, hg, hload.1]
  · by_cases hg : text = "" || pyLen (pyStrip text) < 100
    · simp [check, hg]
    · simp [check, hg, hload.2]

/-- C9 witness: one unreadable file plus one 50-character file give the zero
default. -/
theorem C9_witness :
    checkPlagiarism
        (.ok ⟨true, [("corpus/x.txt", .error "IOError"),
                     ("corpus/y.txt", .ok ⟨List.replicate 50 'e'⟩)]⟩)
        (.ok [9/10]) ⟨List.replicate 150 'f'⟩ = .ok defaultPlag ∧
      check (.ok ⟨true, [("corpus/x.txt", .error "IOError"),
                     ("corpus/y.txt", .ok ⟨List.replicate 50 'e'⟩)]⟩)
        (.ok [9/10]) ⟨List.replicate 150 'f'⟩ = .ok 0 :=
  C9_empty_corpus_zero _ _ _ (Or.inr (by
    intro f hf c hrd
    rcases List.mem_cons.mp hf with rfl | hf2
    · exact Except.noConfusion hrd
    · rcases List.mem_cons.mp hf2 with rfl | hf3
      · cases hrd
        decide
      · exact absurd hf3 (List.not_mem_nil _)))

/-- C10 (amended): exceptions from TF-IDF vectorization or similarity
computation are caught inside `check_plagiarism` and `check` and converted to
the zero default, and an unreadable corpus file is skipped by the loader; but
an exception while resolving the corpus directory configuration — which
happens before the `try` block — propagates out of both functions for any
gate-passing document. -/
theorem C10_plagiarism_exception_boundaries :
    (∀ fs e text, checkPlagiarism (.ok fs) (.error e) text = .ok defaultPlag) ∧
    (∀ fs e text, check (.ok fs) (.error e) text = .ok 0) ∧
    (∀ m simsR text, 100 ≤ pyLen (pyStrip text) →
      checkPlagiarism (.error m) simsR text = .error m) ∧
    (∀ m simsR text, 100 ≤ pyLen (pyStrip text) → check (.error m) simsR text = .error m) ∧
    (∀ p e rest, loadCorpusWithFilenames ⟨true, (p, .error e) :: rest⟩ =
      loadCorpusWithFilenames ⟨true, rest⟩) := by
  refine ⟨?_, ?_, ?_, ?_, ?_⟩
  · intro fs e text
    by_cases hg : text = "" || pyLen (pyStrip text) < 100
    · simp [checkPlagiarism, hg]
    · by_cases hc : (loadCorpusWithFilenames fs).1.isEmpty <;>
        simp [checkPlagiarism, hg, hc]
  · intro fs e text
    by_cases hg : text = "" || pyLen (pyStrip text) < 100
    · simp [check, hg]
    · by_cases hc : (loadCorpus fs).isEmpty <;> simp [check, hg, hc]
  · intro m simsR text hgate
    simp [checkPlagiarism, ne_empty_of_gate hgate, Nat.not_lt.mpr hgate]
  · intro m simsR text hgate
    simp [check, ne_empty_of_gate hgate, Nat.not_lt.mpr hgate]
  · intro p e rest
    simp [loadCorpusWithFilenames]

set_option maxRecDepth 8000 in
/-- C10 counterexample: with the corpus-directory resolution raising (as it
does outside a Flask application context), `check_plagiarism` propagates the
exception for a gate-passing document instead of returning the zero
default. -/
theorem C10_counterexample :
    checkPlagiarism (.error "Working outside of application context") (.ok [])
        ⟨List.replicate 120 'a'⟩ = .error "Working outside of application context" ∧
      (Except.error "Working outside of application context" ≠
        (.ok defaultPlag : Except String PlagResult)) := by
  constructor
  · rfl
  · intro h
    exact Except.noConfusion h

/-! ## Claim about citation segmentation (C6) -/

/-- C6: a references region whose lines after the header are three numbered
entries, each followed by a blank line, parses to exactly those three
citations in document order. -/
theorem C6_citation_segmentation (doc e1 e2 e3 : String)
    (hsplit : pySplitLines doc = ["References", e1, "", e2, "", e3, ""])
    (h1 : entryOk e1) (h2 : entryOk e2) (h3 : entryOk e3) :
    parseCitations doc = [e1, e2, e3] := by
  obtain ⟨t1, n1, s1⟩ := h1
  obtain ⟨t2, n2, s2⟩ := h2
  obtain ⟨t3, n3, s3⟩ := h3
  simp [parseCitations, hsplit, parseLoop, parseFinish, t1, n1, s1, t2, n2, s2, t3, n3, s3,
    pyStrip_empty]

set_option maxRecDepth 8000 in
/-- C6 witness: the segmentation theorem applied to a concrete three-entry
references block. -/
theorem C6_witness :
    parseCitations
        "References\n1. Smith, J. (2020). A Study of Things. Journal X.\n\n2. Doe, A. Some Other Work.\n\n3. Brown, C. Third Entry Here.\n" =
      ["1. Smith, J. (2020). A Study of Things. Journal X.",
       "2. Doe, A. Some Other Work.",
       "3. Brown, C. Third Entry Here."] :=
  C6_citation_segmentation _ _ _ _ (by decide) (by decide) (by decide) (by decide)

/-! ## Claims about the analyze endpoints (C1, C2) -/

/-- C1: once a document passes extraction and the minimum-length gate, the
analyze endpoint returns HTTP 200 with all five top-level fields present for
every combination of stage outcomes, substituting each failed stage's
documented default (failure-message summary, score 0.0, empty citations,
empty claims) while the other stages' results are untouched; the same
per-stage defaulting holds for the stage section of the protected endpoint,
whose plagiarism default carries empty matches. -/
theorem C1_stage_failure_isolation (filename text title : String) (wc : Nat)
    (st : StageOutcomes) (stP : StageOutcomesP)
    (hfn : filename ≠ "") (hpdf : pyEndsWith (pyLower filename) ".pdf" = true)
    (hgate : 100 ≤ pyLen (pyStrip text)) :
    analyzeDocument true filename (.ok (text, wc, title)) st =
      (.success
        { summary := stageSummary st.summarizeR
          plagiarism := stageScore st.plagiarismR
          citations := (stageCitations st.citationsR).map formatCitation
          factCheck := (stageFacts st.factsR).map formatFact
          stats :=
            { wordCount := wc
              plagiarismPercent := stageScore st.plagiarismR
              citationsCount := ((stageCitations st.citationsR).map formatCitation).length } },
       ["summarize", "plagiarism", "citations", "factcheck"]) ∧
    statusCode (analyzeDocument true filename (.ok (text, wc, title)) st).1 = 200 ∧
    (∀ e, st.summarizeR = .error e →
      stageSummary st.summarizeR = "Unable to generate summary due to processing error.") ∧
    (∀ e, st.plagiarismR = .error e → stageScore st.plagiarismR = 0) ∧
    (∀ e, st.citationsR = .error e → (stageCitations st.citationsR).map formatCitation = []) ∧
    (∀ e, st.factsR = .error e → (stageFacts st.factsR).map formatFact = []) ∧
    protectedStages stP =
      (stageSummary stP.summarizeR, stagePlagResult stP.plagiarismR,
        stageCitations stP.citationsR, stageFacts stP.factsR) ∧
    (∀ e, stP.plagiarismR = .error e → stagePlagResult stP.plagiarismR = ⟨0, []⟩) := by
  have hshape : analyzeDocument true filename (.ok (text, wc, title)) st =
      (.success
        { summary := stageSummary st.summarizeR
          plagiarism := stageScore st.plagiarismR
          citations := (stageCitations st.citationsR).map formatCitation
          factCheck := (stageFacts st.factsR).map formatFact
          stats :=
            { wordCount := wc
              plagiarismPercent := stageScore st.plagiarismR
              citationsCount := ((stageCitations st.citationsR).map formatCitation).length } },
       ["summarize", "plagiarism", "citations", "factcheck"]) := by
    simp [analyzeDocument, hfn, hpdf, ne_empty_of_gate hgate, Nat.not_lt.mpr hgate]
  refine ⟨hshape, by rw [hshape]; rfl, ?_, ?_, ?_, ?_, rfl, ?_⟩
  · intro e he
    simp [stageSummary, he]
  · intro e he
    simp [stageScore, he]
  · intro e he
    simp [stageCitations, he]
  · intro e he
    simp [stageFacts, he]
  · intro e he
    simp [stagePlagResult, he]

set_option maxRecDepth 8000 in
/-- C1 witness: the isolation theorem applied to a run in which every stage
fails. -/
theorem C1_witness :
    analyzeDocument true "paper.pdf" (.ok (⟨List.replicate 150 'a'⟩, 25, "Title"))
      ⟨.error "model down", .error "sklearn down", .error "crossref down", .error "api down"⟩ =
      (.success
        { summary := "Unable to generate summary due to processing error."
          plagiarism := 0
          citations := []
          factCheck := []
          stats := { wordCount := 25, plagiarismPercent := 0, citationsCount := 0 } },
       ["summarize", "plagiarism", "citations", "factcheck"]) := by
  have h := C1_stage_failure_isolation "paper.pdf" ⟨List.replicate 150 'a'⟩ "Title" 25
    ⟨.error "model down", .error "sklearn down", .error "crossref down", .error "api down"⟩
    ⟨.error "a", .error "b", .error "c", .error "d"⟩
    (by decide) (by decide) (by decide)
  exact h.1

/-- C2: for an uploaded PDF whose extracted text strips to fewer than 100
characters, the endpoint answers HTTP 400 with the validation message, no
analysis stage is invoked, and the response does not depend on any stage
outcome. -/
theorem C2_short_text_rejected (filename text title : String) (wc : Nat)
    (st st' : StageOutcomes)
    (hfn : filename ≠ "") (hpdf : pyEndsWith (pyLower filename) ".pdf" = true)
    (hshort : pyLen (pyStrip text) < 100) :
    analyzeDocument true filename (.ok (text, wc, title)) st =
      (.clientError "Document text too short for analysis", []) ∧
    statusCode (analyzeDocument true filename (.ok (text, wc, title)) st).1 = 400 ∧
    analyzeDocument true filename (.ok (text, wc, title)) st =
      analyzeDocument true filename (.ok (text, wc, title)) st' := by
  have hshape : ∀ s : StageOutcomes, analyzeDocument true filename (.ok (text, wc, title)) s =
      (.clientError "Document text too short for analysis", []) := by
    intro s
    simp [analyzeDocument, hfn, hpdf, hshort]
  exact ⟨hshape st, by simp [hshape st, statusCode], by rw [hshape st, hshape st']⟩

/-- C2 witness: a 10-character document is rejected with no stage invoked. -/
theorem C2_witness :
    analyzeDocument true "short.pdf" (.ok ("tiny text.", 2, "T"))
        ⟨.ok "s", .ok 0, .ok [], .ok []⟩ =
      (.clientError "Document text too short for analysis", []) :=
  (C2_short_text_rejected "short.pdf" "tiny text." "T" 2
    ⟨.ok "s", .ok 0, .ok [], .ok []⟩ ⟨.error "x", .error "y", .error "z", .error "w"⟩
    (by decide) (by decide) (by decide)).1

set_option maxRecDepth 8000 in
/-- C10 witness: the amended theorem applied at a concrete failing vectorizer
and a concrete failing configuration. -/
theorem C10_witness :
    checkPlagiarism (.ok ⟨true, [("corpus/z.txt", .ok ⟨List.replicate 150 'g'⟩)]⟩)
        (.error "sklearn failure") ⟨List.replicate 150 'h'⟩ = .ok defaultPlag ∧
      check (.error "no app context") (.ok []) ⟨List.replicate 150 'h'⟩ =
        .error "no app context" :=
  ⟨C10_plagiarism_exception_boundaries.1 _ _ _,
   C10_plagiarism_exception_boundaries.2.2.2.1 _ _ _ (by decide)⟩

/-! ## Claim about fact-check verdict normalization (C3) -/

/-- C3: `_determine_fact_check_status` returns `"no_verdict"` on every input,
including one whose review carries the textual rating "True"; the
keyword-matching normalization described by the specification (and by the
function's own docstring, which lists "verified" and "contradicted" as
possible returns) is not implemented. -/
theorem C3_verdict_normalization_stub :
    determineFactCheckStatus c3Input = "no_verdict" ∧
    ∀ fcs, determineFactCheckStatus fcs = "no_verdict" := by
  constructor
  · rfl
  · intro fcs
    unfold determineFactCheckStatus
    by_cases h : fcs.isEmpty <;> simp [h]

/-! ## Claim about the unconfigured fact-check path (C4) -/

/-- Every mock verdict's status is one of the three fabricated outcomes. -/
theorem verdictAt_status (k : Fin 5) :
    (verdictAt k).status = "verified" ∨ (verdictAt k).status = "contradicted" ∨
      (verdictAt k).status = "no_verdict" := by
  fin_cases k <;> simp [verdictAt, mockVerdicts]

/-- Every result of the mock generator carries a fabricated verdict status
and no error. -/
theorem generateMockAux_mem (rng : MockRng) :
    ∀ (claims : List String) (i : Nat) (r : FCResult), r ∈ generateMockAux rng i claims →
      (r.status = "verified" ∨ r.status = "contradicted" ∨ r.status = "no_verdict") ∧
        r.error = none := by
  intro claims
  induction claims with
  | nil =>
    intro i r h
    simp [generateMockAux] at h
  | cons c rest ih =>
    intro i r h
    rw [generateMockAux] at h
    rcases List.mem_cons.mp h with rfl | h2
    · exact ⟨verdictAt_status _, rfl⟩
    · exact ih _ _ h2

/-- C4 (amended): when fact-checking is explicitly disabled every claim gets
status `not_configured` with the explanatory message, but when the capability
is merely unconfigured (no API key, no service account, not disabled)
`fact_check_claims` returns randomly drawn mock results whose statuses are
fabricated verdicts (`verified`/`contradicted`/`no_verdict`) with no error —
not `not_configured`. -/
theorem C4_not_configured_vs_mock (env : FCEnv) (api : FCApi) (rng : MockRng)
    (claims : List String) :
    (env.factcheckUse = "disabled" →
      (factCheckClaims env api rng claims).1 = claims.map (fun c =>
        { claim := c, status := "not_configured", factChecks := [],
          error := some "Fact-checking is disabled via FACTCHECK_USE=disabled" })) ∧
    (env.factcheckUse ≠ "disabled" → useServiceAccount env = false → useApiKey env = false →
      ∀ r ∈ (factCheckClaims env api rng claims).1,
        (r.status = "verified" ∨ r.status = "contradicted" ∨ r.status = "no_verdict") ∧
          r.error = none) := by
  constructor
  · intro hdis
    by_cases hc : claims.isEmpty
    · have : claims = [] := List.isEmpty_iff.mp hc
      simp [factCheckClaims, this]
    · simp [factCheckClaims, hc, hdis]
  · intro hdis hsa hkey r hr
    by_cases hc : claims.isEmpty
    · have : claims = [] := List.isEmpty_iff.mp hc
      simp [factCheckClaims, this] at hr
    · simp [factCheckClaims, hc, hdis, hsa, hkey, generateMockFactCheckResults] at hr
      exact generateMockAux_mem rng claims 0 r hr

/-- C4 counterexample: with no API key and no service account (and the
default `FACTCHECK_USE=api_key`), a claim receives the fabricated status
"verified" rather than "not_configured". -/
theorem C4_counterexample :
    ((factCheckClaims c4Env c4Api c4Rng ["Global temperatures rose."]).1.map
      FCResult.status) = ["verified"] ∧ ("verified" : String) ≠ "not_configured" := by
  constructor
  · rfl
  · decide

/-- C4 witness: the disabled branch of the amended theorem at two concrete
claims. -/
theorem C4_witness :
    (factCheckClaims c4DisabledEnv c4Api c4Rng ["Claim one.", "Claim two."]).1 =
      [{ claim := "Claim one.", status := "not_configured", factChecks := [],
         error := some "Fact-checking is disabled via FACTCHECK_USE=disabled" },
       { claim := "Claim two.", status := "not_configured", factChecks := [],
         error := some "Fact-checking is disabled via FACTCHECK_USE=disabled" }] := by
  have h := (C4_not_configured_vs_mock c4DisabledEnv c4Api c4Rng
    ["Claim one.", "Claim two."]).1 rfl
  simpa using h

/-! ## Claim about claim extraction (C7) -/

/-- C7 (amended): every extracted claim has more than 40 characters (so every
35-character sentence is excluded); every question is excluded regardless of
length; a declarative sentence (of 60 characters or any length above 40)
matching none of the exclusion patterns and containing at least five
whitespace-separated words is included whenever the kept sentences fit the
20-claim cap; and the result is capped to the earliest 20 kept sentences. -/
theorem C7_claim_filter (tok : String → List String) (text : String) :
    (∀ s ∈ extractClaims tok text, 40 < pyLen s) ∧
    (∀ s ∈ extractClaims tok text, pyEndsWith (pyStrip (pyLower s)) "?" = false) ∧
    (∀ s ∈ tok text, text ≠ "" →
      40 < pyLen (pyStrip s) →
      pyStartsWith (pyStrip (pyLower (pyStrip s))) "figure" = false →
      pyStartsWith (pyStrip (pyLower (pyStrip s))) "table" = false →
      pyStartsWith (pyStrip (pyLower (pyStrip s))) "see" = false →
      pyStartsWith (pyStrip (pyLower (pyStrip s))) "cf." = false →
      pyStartsWith (pyStrip (pyLower (pyStrip s))) "e.g." = false →
      pyStartsWith (pyStrip (pyLower (pyStrip s))) "i.e." = false →
      pyEndsWith (pyStrip (pyLower (pyStrip s))) "?" = false →
      (pyContainsChar (pyStrip s) '[' && pyContainsChar (pyStrip s) ']') = false →
      pyStartsWith (pyStrip (pyLower (pyStrip s))) "references" = false →
      pyStartsWith (pyStrip (pyLower (pyStrip s))) "bibliography" = false →
      pyStartsWith (pyStrip (pyLower (pyStrip s))) "acknowledgments" = false →
      5 ≤ (pyWords (pyStrip s)).length →
      (((tok text).map pyStrip).filter keepClaim).length ≤ 20 →
      pyStrip s ∈ extractClaims tok text) ∧
    (extractClaims tok text).length ≤ 20 ∧
    extractClaims tok text <+: ((tok text).map pyStrip).filter keepClaim := by
  have hkeep : ∀ s ∈ extractClaims tok text, keepClaim s = true := by
    intro s hs
    by_cases ht : text = ""
    · simp [extractClaims, ht] at hs
    · simp only [extractClaims, ht, if_false] at hs
      exact List.of_mem_filter (List.mem_of_mem_take hs)
  refine ⟨?_, ?_, ?_, ?_, ?_⟩
  · intro s hs
    have hk := hkeep s hs
    simp [keepClaim] at hk
    exact hk.1
  · intro s hs
    have hk := hkeep s hs
    have hnc : isLikelyNonClaim s = false := by
      rcases h : isLikelyNonClaim s
      · rfl
      · rw [keepClaim, h] at hk
        simp at hk
    by_contra hq
    rw [← ne_eq, Bool.ne_false_iff] at hq
    have htrue : isLikelyNonClaim s = true := by
      simp [isLikelyNonClaim, hq]
    rw [htrue] at hnc
    exact Bool.noConfusion hnc
  · intro s hs ht h40 hf1 hf2 hf3 hf4 hf5 hf6 hq hbr hr1 hr2 hr3 hw hlen
    have hnc : isLikelyNonClaim (pyStrip s) = false := by
      simp [isLikelyNonClaim, hf1, hf2, hf3, hf4, hf5, hf6, hq, hbr, hr1, hr2, hr3,
        Nat.not_lt.mpr hw]
    have hk : keepClaim (pyStrip s) = true := by
      simp [keepClaim, h40, hnc]
    have hmem : pyStrip s ∈ ((tok text).map pyStrip).filter keepClaim :=
      List.mem_filter.mpr ⟨List.mem_map_of_mem _ hs, hk⟩
    simp only [extractClaims, ht, if_false]
    rw [List.take_of_length_le hlen]
    exact hmem
  · by_cases ht : text = ""
    · simp [extractClaims, ht]
    · simp only [extractClaims, ht, if_false]
      exact List.length_take_le 20 _
  · by_cases ht : text = ""
    · rw [show extractClaims tok text = [] from by simp [extractClaims, ht]]
      exact ⟨_, rfl⟩
    · simp only [extractClaims, ht, if_false]
      exact ⟨_, List.take_append_drop 20 _⟩

set_option maxRecDepth 8000 in
/-- C7 counterexample: a declarative 60-character sentence with no exclusion
pattern from the claim's list (not a question, no markers, no brackets) but
only four words is nevertheless excluded, because the code also filters
sentences of fewer than five words. -/
theorem C7_counterexample :
    pyLen "Thermodynamically disequilibrated quasiparticle ensembles..." = 60 ∧
    pyStrip "Thermodynamically disequilibrated quasiparticle ensembles..." =
      "Thermodynamically disequilibrated quasiparticle ensembles..." ∧
    pyEndsWith (pyStrip (pyLower "Thermodynamically disequilibrated quasiparticle ensembles..."))
      "?" = false ∧
    pyContainsChar "Thermodynamically disequilibrated quasiparticle ensembles..." '[' = false ∧
    isLikelyNonClaim "Thermodynamically disequilibrated quasiparticle ensembles..." = true ∧
    extractClaims (fun _ => ["Thermodynamically disequilibrated quasiparticle ensembles..."])
      "Thermodynamically disequilibrated quasiparticle ensembles..." = [] := by
  refine ⟨by decide, by decide, by decide, by decide, by decide, by decide⟩

set_option maxRecDepth 8000 in
/-- C7 witness: the amended inclusion applied to a concrete 72-character,
six-word declarative sentence. -/
theorem C7_witness :
    "Comprehensive experimental evaluations demonstrated robust improvements." ∈
      extractClaims
        (fun _ => ["Comprehensive experimental evaluations demonstrated robust improvements."])
        "Comprehensive experimental evaluations demonstrated robust improvements." := by
  have h := (C7_claim_filter
    (fun _ => ["Comprehensive experimental evaluations demonstrated robust improvements."])
    "Comprehensive experimental evaluations demonstrated robust improvements.").2.2.1
    "Comprehensive experimental evaluations demonstrated robust improvements."
    (by decide) (by decide) (by decide) (by decide) (by decide) (by decide) (by decide)
    (by decide) (by decide) (by decide) (by decide) (by decide) (by decide) (by decide)
    (by decide) (by decide)
  simpa using h

/-! ## Claim about fact-check retries and delays (C8) -/

/-- Retry-loop sleeps are all backoff events. -/
theorem retryLoop_backoff_only (f : Nat → Except String FCResponse) (m : Nat) :
    ∀ (fuel a : Nat), ∀ ev ∈ (retryLoop f m a fuel).2.2, ev.isInterClaim = false := by
  intro fuel
  induction fuel with
  | zero =>
    intro a ev h
    simp [retryLoop] at h
  | succ n ih =>
    intro a ev h
    rw [retryLoop] at h
    rcases hf : f a with e | r
    · rw [hf] at h
      by_cases ha : a < m
      · simp only [ha, if_true] at h
        rcases List.mem_cons.mp h with rfl | h2
        · rfl
        · exact ih _ ev h2
      · simp [ha] at h
    · rw [hf] at h
      simp at h

/-- With the default three retries, the loop makes at most 3 attempts, and
its sleeps are exactly the backoffs `0.5 × attempt` for each failed
non-final attempt, in increasing order. -/
theorem retryLoop_spec3 (f : Nat → Except String FCResponse) :
    (retryLoop f 3 1 3).2.1 ≤ 3 ∧
    (retryLoop f 3 1 3).2.2 = (List.range ((retryLoop f 3 1 3).2.1 - 1)).map
      (fun k => SleepEv.backoff ((1:ℚ)/2 * (k + 1))) := by
  rcases h1 : f 1 with e1 | r1 <;> rcases h2 : f 2 with e2 | r2 <;> rcases h3 : f 3 with e3 | r3 <;>
    simp [retryLoop, h1, h2, h3, List.range_succ] <;> norm_num

/-- The sleeps of one claim-loop iteration are all backoff events. -/
theorem fcStep_backoff_only (env : FCEnv) (api : FCApi) (mode : String) (ok : Bool)
    (i : Nat) (claim : String) :
    ∀ ev ∈ (fcStep env api mode ok i claim).2, ev.isInterClaim = false := by
  intro ev h
  rw [fcStep] at h
  by_cases hcl : cleanQueryForFactcheck claim = ""
  · simp [hcl] at h
  · simp only [hcl, if_false, if_neg] at h
    set call := if mode = "service_account" && ok then callGoogleFactcheckSA env api i claim
      else callGoogleFactcheckRest env api i claim with hcall
    have hc2 : ∀ ev ∈ call.2.2, ev.isInterClaim = false := by
      rw [hcall]
      by_cases hm : mode = "service_account" && ok
      · simp only [hm, if_true]
        rw [callGoogleFactcheckSA]
        by_cases hq : cleanQueryForFactcheck claim = ""
        · simp [hq]
        · simp only [hq, if_false]
          exact retryLoop_backoff_only _ _ _ _
      · simp only [hm, if_false]
        rw [callGoogleFactcheckRest]
        by_cases hk : env.apiKey = ""
        · simp [hk]
        · by_cases hq : cleanQueryForFactcheck claim = ""
          · simp [hk, hq]
          · simp only [hk, hq, if_false]
            exact retryLoop_backoff_only _ _ _ _
    rcases hres : call.1 with e | r
    · rw [hres] at h
      simp at h
      exact hc2 ev h
    · rw [hres] at h
      simp at h
      exact hc2 ev h

/-- The claim loop emits exactly one inter-claim sleep per claim after the
first, whatever each claim's outcome. -/
theorem fcLoop_inter_count (env : FCEnv) (api : FCApi) (mode : String) (ok : Bool) :
    ∀ (claims : List String) (i : Nat),
      ((fcLoop env api mode ok i claims).2.filter SleepEv.isInterClaim).length =
        if i = 0 then claims.length - 1 else claims.length := by
  intro claims
  induction claims with
  | nil =>
    intro i
    simp [fcLoop]
  | cons c rest ih =>
    intro i
    rw [fcLoop]
    simp only [List.filter_append, List.length_append]
    have hstep : (fcStep env api mode ok i c).2.filter SleepEv.isInterClaim = [] := by
      rw [List.filter_eq_nil_iff]
      intro ev hev
      simp [fcStep_backoff_only env api mode ok i c ev hev]
    rw [hstep]
    by_cases hi : i = 0
    · subst hi
      simp [ih 1]
    · have h0 : 0 < i := Nat.pos_of_ne_zero hi
      simp only [h0, if_true, hi, if_false]
      have hone : (List.filter SleepEv.isInterClaim [SleepEv.interClaim env.delay]).length = 1 := rfl
      rw [hone, ih (i + 1)]
      simp [Nat.succ_ne_zero]
      omega

/-- Every inter-claim sleep of the claim loop has the configured delay. -/
theorem fcLoop_inter_delay (env : FCEnv) (api : FCApi) (mode : String) (ok : Bool) :
    ∀ (claims : List String) (i : Nat), ∀ ev ∈ (fcLoop env api mode ok i claims).2,
      ev.isInterClaim = true → ev = .interClaim env.delay := by
  intro claims
  induction claims with
  | nil =>
    intro i ev h
    simp [fcLoop] at h
  | cons c rest ih =>
    intro i ev h hinter
    rw [fcLoop] at h
    simp only [List.mem_append] at h
    rcases h with (h | h) | h
    · by_cases hi : 0 < i
      · simp only [hi, if_true] at h
        rcases List.mem_singleton.mp h with rfl
        rfl
      · simp [hi] at h
    · have := fcStep_backoff_only env api mode ok i c ev h
      rw [this] at hinter
      exact absurd hinter (by simp)
    · exact ih (i + 1) ev h hinter

/-- In API-key mode with a key present, `fact_check_claims` runs the claim
loop from index 0. -/
theorem factCheckClaims_api_key_mode (env : FCEnv) (api : FCApi) (rng : MockRng)
    (claims : List String) (hmode : env.factcheckUse = "api_key") (hkey : env.apiKey ≠ "")
    (hne : claims ≠ []) :
    factCheckClaims env api rng claims = fcLoop env api "api_key" false 0 claims := by
  have husa : useServiceAccount env = false := by
    simp [useServiceAccount, hmode]
  have huak : useApiKey env = true := by
    simp [useApiKey, hmode, hkey]
  have hc : claims.isEmpty = false := by
    simp [List.isEmpty_iff, hne]
  simp [factCheckClaims, hc, hmode, husa, huak]

/-- C8: with the default settings (3 retries, 0.5s delay, API-key mode), each
transport call makes at most 3 attempts with backoff sleeps of exactly
`0.5 × attempt` before each retry after a failure, and the claim loop inserts
exactly one fixed 0.5-second inter-claim delay per claim after the first,
regardless of each claim's outcome. -/
theorem C8_retry_backoff_and_interclaim_delay (env : FCEnv) (api : FCApi) (rng : MockRng)
    (claims : List String)
    (hmax : env.maxRetries = 3) (hdelay : env.delay = 1/2)
    (hmode : env.factcheckUse = "api_key") (hkey : env.apiKey ≠ "") :
    (∀ i q, (callGoogleFactcheckRest env api i q).2.1 ≤ 3 ∧
      (callGoogleFactcheckRest env api i q).2.2 =
        (List.range ((callGoogleFactcheckRest env api i q).2.1 - 1)).map
          (fun k => SleepEv.backoff ((1:ℚ)/2 * (k + 1)))) ∧
    ((factCheckClaims env api rng claims).2.filter SleepEv.isInterClaim).length =
      claims.length - 1 ∧
    (∀ ev ∈ (factCheckClaims env api rng claims).2, ev.isInterClaim = true →
      ev = .interClaim (1/2 : ℚ)) := by
  refine ⟨?_, ?_, ?_⟩
  · intro i q
    simp only [callGoogleFactcheckRest, hkey, if_false, if_neg]
    by_cases hq : cleanQueryForFactcheck q = ""
    · simp [hq]
    · simp only [hq, if_false]
      rw [hmax]
      exact retryLoop_spec3 (api.restAttempt i)
  · by_cases hne : claims = []
    · subst hne
      simp [factCheckClaims]
    · rw [factCheckClaims_api_key_mode env api rng claims hmode hkey hne]
      rw [fcLoop_inter_count]
      simp
  · by_cases hne : claims = []
    · subst hne
      intro ev h
      simp [factCheckClaims] at h
    · rw [factCheckClaims_api_key_mode env api rng claims hmode hkey hne]
      intro ev h hinter
      have := fcLoop_inter_delay env api "api_key" false claims 0 ev h hinter
      rw [hdelay] at this
      exact this

set_option maxRecDepth 8000 in
/-- C8 witness: the theorem applied to a concrete oracle that times out twice
then succeeds, with two claims (one inter-claim delay). -/
theorem C8_witness :
    ((factCheckClaims c8Env c8Api c8Rng
        ["First claim sentence here.", "Second claim sentence here."]).2.filter
      SleepEv.isInterClaim).length = 1 ∧
    (callGoogleFactcheckRest c8Env c8Api 0 "Some sufficiently long claim.").2.1 ≤ 3 := by
  constructor
  · exact (C8_retry_backoff_and_interclaim_delay c8Env c8Api c8Rng _ rfl rfl rfl (by decide)).2.1
  · exact ((C8_retry_backoff_and_interclaim_delay c8Env c8Api c8Rng [] rfl rfl rfl
      (by decide)).1 0 _).1

end RPA
